import Mathlib

/-!
Verification of the generation orchestration pipeline of the ai-tile-backend
repository, a shallow embedding of the `generate_image` endpoint in
`src/app/api/routes_generate.py` together with the helper semantics it relies
on (Python truthiness, `str.strip`, `dict.update`, the JSON-extraction regex,
and the streamed-chunk consumption loop).  External collaborators (httpx, the
Gemini client, Supabase storage and tables) are modelled as oracle fields of
an `Env` record; the pipeline itself is a pure function from `Env` to an
outcome plus a trace of observable effects, mirroring the Python control flow
branch by branch.
-/

namespace AiTile

/-! ## Python string semantics -/

/-- Whitespace recognised by Python `str.strip()` (ASCII subset; the repo
only ever strips model text and user hints, and the properties proved below
depend only on these six characters being whitespace). -/
def isPySpace (c : Char) : Bool :=
  c = ' ' || c = '\t' || c = '\n' || c = '\r' || c = '\x0b' || c = '\x0c'

/-- `str.strip()` on a character list: drop leading and trailing whitespace. -/
def stripChars (l : List Char) : List Char :=
  ((l.dropWhile isPySpace).reverse.dropWhile isPySpace).reverse

/-- Python `s.strip()`. -/
def pyStrip (s : String) : String := String.mk (stripChars s.data)

/-- Python truthiness of an optional string (`None` and `""` are falsy). -/
def strFalsy : Option String → Bool
  | none => true
  | some s => s = ""

/-- Python truthiness of an optional int (`None` and `0` are falsy). -/
def intFalsy : Option Int → Bool
  | none => true
  | some n => n = 0

/-- `Optional[str]` coerced to the string actually used (only reached when
the value is a usable URL; see `preflight`). -/
def optStr : Option String → String
  | none => ""
  | some s => s

/-! ## Python dict semantics (string-valued dictionaries)

The scene context built at lines 227-232 of `routes_generate.py` is a Python
dict; `dict.update` overwrites existing keys in place and appends new keys in
insertion order, and `dict.get(k, d)` returns the stored value or the
default.  We model such a dict as an association list without duplicate
keys. -/

abbrev PDict := List (String × String)

/-- Python `k in d`. -/
def hasKey (d : PDict) (k : String) : Bool :=
  d.any fun kv => kv.1 = k

/-- Insert-or-overwrite one binding, preserving CPython insertion order. -/
def upsert (d : PDict) (k v : String) : PDict :=
  if hasKey d k then d.map (fun kv => if kv.1 = k then (k, v) else kv)
  else d ++ [(k, v)]

/-- Python `d.update(p)` applied binding by binding. -/
def dictUpdate (d : PDict) : PDict → PDict
  | [] => d
  | (k, v) :: rest => dictUpdate (upsert d k v) rest

/-- Python `d.get(k, dflt)`. -/
def dictGet (d : PDict) (k dflt : String) : String :=
  match d.find? (fun kv => kv.1 = k) with
  | some kv => kv.2
  | none => dflt

/-- The default scene context (routes_generate.py lines 227-232). -/
def defaultContext : PDict :=
  [("surface_type", "floor"),
   ("estimated_tile_size", "medium"),
   ("region_description", "bottom part of the image"),
   ("lighting_condition", "natural")]

/-! ## JSON extraction (line 285) and decoding (line 287)

`re.search(r'{[^}]+}', text, re.DOTALL)` finds the leftmost
position where an opening brace is followed by one or more non-closing-brace
characters and then a closing brace.  `json.loads` is modelled for the flat
string-valued objects that the analyzer prompt requests (exactly four string
fields); escape sequences and non-string values are not modelled and make the
decode fail, as does any malformed input. -/

def lbraceC : Char := Char.ofNat 123

def rbraceC : Char := Char.ofNat 125

/-- Characters of a candidate match up to (excluding) the first closing
brace; `none` when no closing brace follows. -/
def scanInner : List Char → Option (List Char)
  | [] => none
  | c :: rest =>
    if c = rbraceC then some []
    else (scanInner rest).map (c :: ·)

/-- The regex search: first match of an opening brace, one or more
non-closing-brace characters, then a closing brace. -/
def extractJson : List Char → Option (List Char)
  | [] => none
  | c :: rest =>
    if c = lbraceC then
      match scanInner rest with
      | some inner =>
        if inner = [] then extractJson rest
        else some (lbraceC :: (inner ++ [rbraceC]))
      | none => extractJson rest
    else extractJson rest

/-- JSON whitespace. -/
def isJsonWs (c : Char) : Bool :=
  c = ' ' || c = '\t' || c = '\n' || c = '\r'

def skipWs (l : List Char) : List Char := l.dropWhile isJsonWs

/-- Characters of a JSON string up to the closing quote (no escapes). -/
def strBody : List Char → Option (List Char × List Char)
  | [] => none
  | c :: rest =>
    if c = '"' then some ([], rest)
    else if c = '\\' then none
    else (strBody rest).map fun p => (c :: p.1, p.2)

/-- Parse `"key" : "value"` pairs separated by commas up to the closing
brace, accumulating into a dict (later duplicates win, as in CPython). -/
def parsePairs : Nat → List Char → PDict → Option PDict
  | 0, _, _ => none
  | fuel + 1, l, acc =>
    match skipWs l with
    | c :: r0 =>
      if c = '"' then
        match strBody r0 with
        | none => none
        | some (k, r1) =>
          match skipWs r1 with
          | ':' :: r2 =>
            match skipWs r2 with
            | q :: r3 =>
              if q = '"' then
                match strBody r3 with
                | none => none
                | some (v, r4) =>
                  let acc2 := upsert acc (String.mk k) (String.mk v)
                  match skipWs r4 with
                  | ',' :: r5 => parsePairs fuel r5 acc2
                  | d :: r5 =>
                    if d = rbraceC then
                      if skipWs r5 = [] then some acc2 else none
                    else none
                  | [] => none
              else none
            | [] => none
          | _ => none
      else none
    | [] => none

/-- `json.loads` restricted to flat string-valued objects. -/
def jsonParseFlat (l : List Char) : Option PDict :=
  match l with
  | c :: rest =>
    if c = lbraceC then
      match skipWs rest with
      | d :: r1 =>
        if d = rbraceC then (if skipWs r1 = [] then some [] else none)
        else parsePairs (rest.length + 1) rest []
      | [] => none
    else none
  | [] => none

/-! ## Context analysis (routes_generate.py lines 224-299) -/

/-- Lines 289-294: the parsed object is merged into the context only when it
contains both of the two keys the code checks (`surface_type` and
`region_description`); otherwise the context is left untouched. -/
def applyParsed (ctx p : PDict) : PDict :=
  if hasKey p "surface_type" && hasKey p "region_description" then
    dictUpdate ctx p
  else ctx

/-- Lines 277-299 given the text of a successful analyzer call: empty or
whitespace-only text, no regex match, and decode failure all leave the
default context; a decoded object goes through `applyParsed`. -/
def analyzeFromText (text : String) : PDict :=
  if text = "" || stripChars text.data = [] then defaultContext
  else
    match extractJson text.data with
    | none => defaultContext
    | some cand =>
      match jsonParseFlat cand with
      | none => defaultContext
      | some p => applyParsed defaultContext p

/-- Outcome of the pass-1 analysis call (`call_gemini_with_retry` at line
274): either it ultimately raised (timeout, transport error, empty response,
retries exhausted) or it returned response text. -/
inductive AnalyzerOutcome where
  | raiseErr
  | ok (text : String)
deriving DecidableEq

/-- Lines 234-299: the whole analysis pass, including the enclosing
`try/except` that falls back to the default context on any exception. -/
def runAnalysisOutcome : AnalyzerOutcome → PDict
  | .raiseErr => defaultContext
  | .ok t => analyzeFromText t

/-! ## Prompt composition (routes_generate.py lines 304-356 and 389-396)

The literal pieces below are copied byte for byte from the Python source
(which itself contains mojibake characters in its emoji markers; they are
reproduced exactly, with non-ASCII characters written as escapes). -/

def pLit0 : String := "You are an expert visual compositor creating a photorealistic tile visualization.\n\nTASK:\nYou have two images:\n1. A house or room photo (base image)\n2. A tile sample (to be applied)\n\nINSTRUCTIONS:\nStep 1: REGION IDENTIFICATION\n- Apply tiles to: "

def pLit1 : String := "\n- Surface type: "

def pLit2 : String := "\n- Never place tiles where they wouldn\u0027t naturally appear\n- Use context clues (furniture position, room layout) to infer correct boundaries\n\nStep 2: PHYSICAL REALISM\n- Maintain perfect perspective alignment with room geometry\n- Preserve existing lighting ("

def pLit3 : String := ")\n- Keep all shadows, reflections, and ambient occlusion intact\n- Respect object boundaries (furniture, fixtures, people) \u201A\u00C4\u00EE do not tile over them\n\nStep 3: TILE APPLICATION\n- Tile size appears: "

def pLit4 : String := "\n- Maintain correct aspect ratio and pattern alignment\n- Ensure realistic grout lines with consistent spacing\n- Keep tile color and texture IDENTICAL to the tile image\n- If tile is glossy, reflect ambient light naturally\n- If tile has pattern, maintain continuity without warping\n\nStep 4: QUALITY REQUIREMENTS\n- Output must look like an authentic architectural photograph\n- No distortion, duplication, or pattern breaks\n- Soft blending at tile boundaries for seamless integration\n- Preserve wall colors and existing textures exactly\n- Same input must yield consistent, deterministic output\n\nCRITICAL RULES:\n\u201A\u00F9\u00E5 Do NOT tile over: ceilings, doors, windows, furniture, decorative elements, people\n\u201A\u00F9\u00E5 Do NOT add extra reflections or tiles outside intended regions\n\u201A\u00F9\u00E5 Do NOT change lighting or wall colors\n\u201A\u00F9\u00E5 Do NOT warp or stretch the tile pattern\n\n\u201A\u00FA\u00D6 DO maintain physical realism and perspective\n\u201A\u00FA\u00D6 DO preserve scene integrity and lighting\n\u201A\u00FA\u00D6 DO apply tiles only where they logically belong\n\u201A\u00FA\u00D6 DO ensure color fidelity to original tile image"

/-- Line 354: the user-hint suffix marker of the primary prompt. -/
def userReqPre : String := "\n\n\uF8FF\u00FC\u00E9\u00D8 USER REQUEST (highest priority): "

/-- Lines 307-351: the f-string body of `generation_prompt` before the
optional user-hint suffix. -/
def primaryBase (ctx : PDict) : String :=
  pLit0 ++ dictGet ctx "region_description" "the appropriate floor or wall area" ++
  pLit1 ++ dictGet ctx "surface_type" "floor" ++
  pLit2 ++ dictGet ctx "lighting_condition" "natural ambient" ++
  pLit3 ++ dictGet ctx "estimated_tile_size" "medium" ++
  pLit4

/-- Lines 307-354: the full primary generation prompt for a given context and
raw user hint (`body.prompt`); the hint is appended only when it is truthy
and strips to a non-empty string. -/
def composePrimary (ctx : PDict) (hint : String) : String :=
  primaryBase ctx ++
    (if hint ≠ "" && pyStrip hint ≠ "" then userReqPre ++ pyStrip hint else "")

def fbLit0 : String := "Replace only the visible "

def fbLit1 : String := " area with the tile texture.\nKeep everything else (walls, objects, lighting) identical to the original photo.\nEnsure tiles are evenly spaced and maintain their original color."

/-- Line 396: the user-hint suffix marker of the simplified prompt. -/
def userNotePre : String := "\nUser note: "

/-- Lines 391-393: the body of `simplified_prompt`. -/
def fallbackBase (ctx : PDict) : String :=
  fbLit0 ++ dictGet ctx "surface_type" "floor" ++ fbLit1

/-- Lines 391-396: the full simplified (fallback) prompt. -/
def composeFallback (ctx : PDict) (hint : String) : String :=
  fallbackBase ctx ++
    (if hint ≠ "" && pyStrip hint ≠ "" then userNotePre ++ pyStrip hint else "")

/-! ## Streamed synthesis response (routes_generate.py lines 412-451)

The response of `generate_content_stream` is a lazy finite sequence of
chunks; each chunk mirrors the attribute path the code inspects:
`chunk.candidates[0].content.parts[0].inline_data.data`. -/

structure GBlob where
  data : List Nat
deriving DecidableEq

structure GPart where
  inline_data : Option GBlob
deriving DecidableEq

structure GContent where
  parts : List GPart
deriving DecidableEq

structure GCandidate where
  content : Option GContent
deriving DecidableEq

structure Chunk where
  candidates : List GCandidate
deriving DecidableEq

/-- Lines 421-436: the payload the loop body extracts from one chunk, if
any.  A chunk without candidates, content or parts is skipped, only the
first part is inspected, and an absent or empty `inline_data.data` does not
count as a payload. -/
def chunkPayload (c : Chunk) : Option (List Nat) :=
  match c.candidates with
  | [] => none
  | cand :: _ =>
    match cand.content with
    | none => none
    | some ct =>
      match ct.parts with
      | [] => none
      | p :: _ =>
        match p.inline_data with
        | none => none
        | some b => if b.data = [] then none else some b.data

/-- Lines 413-451: consume chunks in order until the first payload, counting
how many chunks were consumed (`chunk_count`); on a payload the loop breaks
immediately, otherwise the whole sequence is exhausted. -/
def scanChunks : List Chunk → Option (List Nat) × Nat
  | [] => (none, 0)
  | c :: rest =>
    match chunkPayload c with
    | some d => (some d, 1)
    | none =>
      let r := scanChunks rest
      (r.1, r.2 + 1)

/-- Outcome of one `generate_content_stream` call: either the call (or the
iteration over it) raised, or it produced a finite chunk sequence. -/
inductive StreamOutcome where
  | raiseErr
  | chunks (cs : List Chunk)

/-! ## The request environment

All external collaborators are oracle fields: the database tables behind the
Supabase lookups, the HTTP fetcher, the two Gemini operations, and the three
persistence operations.  `now` models `int(time.time())` used for the
artifact file name. -/

structure GenerateRequestModel where
  tile_url : Option String
  home_url : Option String
  tile_id : Option Int
  home_id : Option Int
  chat_id : Option Int
  prompt : String
  surface : String

structure DBRow where
  id : Int
  user_id : String
  image_url : String
deriving DecidableEq

/-- Result of one `httpx` GET: a response with status and body bytes, a
`httpx.TimeoutException`, or a `httpx.RequestError`. -/
inductive HttpResult where
  | resp (status : Nat) (content : List Nat)
  | timeoutExc
  | requestErr (msg : String)

structure Env where
  user_id : String
  body : GenerateRequestModel
  tiles : List DBRow
  homes : List DBRow
  api_key : Option String
  bucket : String
  now : Nat
  fetch : String → HttpResult
  analyzer : AnalyzerOutcome
  stream : Nat → StreamOutcome
  upload : Except String Unit
  publicUrl : Except String String
  insertRes : Except String (List (List (String × String)))

/-- A JSON-ish value in the metadata record inserted at line 525. -/
inductive DVal where
  | s (v : String)
  | i (v : Int)
  | nullv
deriving DecidableEq

def optIntD : Option Int → DVal
  | none => .nullv
  | some n => .i n

/-- Observable side effects of the pipeline, in execution order. -/
inductive Effect where
  | dbSelectTiles (id : Int) (uid : String)
  | dbSelectHomes (id : Int) (uid : String)
  | httpGet (url : String)
  | analyzeCall
  | genCall (attempt : Nat) (promptText : String) (consumed : Nat)
  | sleep (secs : Nat)
  | saveLocal (file : String)
  | storageUpload (bucket file : String)
  | getPublicUrl (bucket file : String)
  | dbInsert (record : List (String × DVal))
deriving DecidableEq

/-- The value returned to the HTTP layer: a raised `HTTPException`, a
`success: false` envelope, or a `success: true` envelope with the inserted
record. -/
inductive Outcome where
  | httpError (status : Nat) (detail : String)
  | failure (error : String)
  | successR (image : List (String × String))
deriving DecidableEq

/-! ## Pipeline stages -/

/-- Fixed message and error strings of `generate_image`, copied from the
source. -/
def msgMissingTile : String := "Missing tile source: provide either tile_url or tile_id"

def msgMissingHome : String := "Missing home source: provide either home_url or home_id"

def msgNotFoundSuffix : String := " not found or not owned by user"

def msgNoApiKey : String := "NANO_BANANA_API_KEY not configured on server"

def msgTimeout : String := "Image download timed out"

def msgTransportPre : String := "Failed to download images: "

def genFailMsg : String := "Image generation failed. The AI model could not produce a valid visualization. Please try again with different images or contact support."

def genFail2Msg : String := "Image generation failed to produce output. Please try again."

def uploadFailPre : String := "Image generated successfully but failed to upload to storage: "

def urlFailMsg : String := "Image uploaded but failed to generate public URL. Please contact support."

def dbFailPre : String := "Image generated but failed to save to database: "

def dbEmptyMsg : String := "Image generated but failed to save record. Please contact support."

/-- Lines 108-112 / 125-129: the Supabase lookup
`table.select("image_url").eq("id", n).eq("user_id", user_id)`. -/
def lookupRows (table : List DBRow) (n : Int) (uid : String) : List DBRow :=
  table.filter fun r => r.id = n && r.user_id = uid

/-- Lines 103-121: resolve the tile URL, querying the `tiles` table only
when the URL is falsy and the identifier truthy. -/
def resolveTileUrl (env : Env) : Except Outcome String × List Effect :=
  match env.body.tile_id with
  | some n =>
    if strFalsy env.body.tile_url && !(n = 0 : Bool) then
      match lookupRows env.tiles n env.user_id with
      | [] =>
        (.error (.httpError 404
            ("Tile with ID " ++ toString n ++ msgNotFoundSuffix)),
         [.dbSelectTiles n env.user_id])
      | r :: _ => (.ok r.image_url, [.dbSelectTiles n env.user_id])
    else (.ok (optStr env.body.tile_url), [])
  | none => (.ok (optStr env.body.tile_url), [])

/-- Lines 123-138: resolve the home URL, querying the `homes` table only
when the URL is falsy and the identifier truthy. -/
def resolveHomeUrl (env : Env) : Except Outcome String × List Effect :=
  match env.body.home_id with
  | some n =>
    if strFalsy env.body.home_url && !(n = 0 : Bool) then
      match lookupRows env.homes n env.user_id with
      | [] =>
        (.error (.httpError 404
            ("Home with ID " ++ toString n ++ msgNotFoundSuffix)),
         [.dbSelectHomes n env.user_id])
      | r :: _ => (.ok r.image_url, [.dbSelectHomes n env.user_id])
    else (.ok (optStr env.body.home_url), [])
  | none => (.ok (optStr env.body.home_url), [])

/-- Lines 87-149: source validation, catalog resolution of missing URLs, and
the API-key check, returning the resolved (tile, home) URL pair. -/
def preflight (env : Env) : Except Outcome (String × String) × List Effect :=
  if strFalsy env.body.tile_url && intFalsy env.body.tile_id then
    (.error (.httpError 400 msgMissingTile), [])
  else if strFalsy env.body.home_url && intFalsy env.body.home_id then
    (.error (.httpError 400 msgMissingHome), [])
  else
    match resolveTileUrl env with
    | (.error o, es) => (.error o, es)
    | (.ok tu, es1) =>
      match resolveHomeUrl env with
      | (.error o, es2) => (.error o, es1 ++ es2)
      | (.ok hu, es2) =>
        match env.api_key with
        | none => (.error (.httpError 500 msgNoApiKey), es1 ++ es2)
        | some _ => (.ok (tu, hu), es1 ++ es2)

/-- Lines 154-170: one image download; failure is a 400-class
`HTTPException`. -/
def dlOutcome (r : HttpResult) (which : String) : Except (Nat × String) (List Nat) :=
  match r with
  | .resp st content =>
    if st ≠ 200 then
      .error (400, "Failed to download " ++ which ++ " image: HTTP " ++ toString st)
    else .ok content
  | .timeoutExc => .error (400, msgTimeout)
  | .requestErr e => .error (400, msgTransportPre ++ e)

/-- Lines 152-181: download the tile image then the home image; the first
failure aborts. -/
def downloadBoth (env : Env) (tu hu : String) :
    Except Outcome (List Nat × List Nat) × List Effect :=
  match dlOutcome (env.fetch tu) "tile" with
  | .error (st, msg) => (.error (.httpError st msg), [.httpGet tu])
  | .ok tileBytes =>
    match dlOutcome (env.fetch hu) "home" with
    | .error (st, msg) => (.error (.httpError st msg), [.httpGet tu, .httpGet hu])
    | .ok homeBytes => (.ok (tileBytes, homeBytes), [.httpGet tu, .httpGet hu])

/-- The payload (if any) produced by the stream of a given attempt. -/
def attemptPayload (env : Env) (a : Nat) : Option (List Nat) :=
  match env.stream a with
  | .raiseErr => none
  | .chunks cs => (scanChunks cs).1

/-- The number of chunks consumed by the stream of a given attempt. -/
def attemptConsumed (env : Env) (a : Nat) : Nat :=
  match env.stream a with
  | .raiseErr => 0
  | .chunks cs => (scanChunks cs).2

/-- One synthesis call (lines 412-451): invoke the stream of attempt `a`
with the given prompt and consume chunks up to the first payload. -/
def runStream (env : Env) (a : Nat) (promptText : String) :
    Option (List Nat) × List Effect :=
  (attemptPayload env a, [.genCall a promptText (attemptConsumed env a)])

/-- Line 442: the timestamped artifact name. -/
def fileNameOf (env : Env) : String :=
  "generated_output_" ++ toString env.now ++ ".jpg"

/-- Lines 376-471: the bounded attempt loop.  Attempt 1 uses the primary
prompt; if it produces no payload (exhausted stream or exception) the code
sleeps 3 seconds and retries once with the simplified prompt; a second
failure returns the generic `success:false` error. -/
def attemptLoop (env : Env) (ctx : PDict) :
    Except String (List Nat × String) × List Effect :=
  let hint := env.body.prompt
  let p1 := composePrimary ctx hint
  let fn := fileNameOf env
  match runStream env 1 p1 with
  | (some d, es1) => (.ok (d, fn), es1 ++ [.saveLocal fn])
  | (none, es1) =>
    let p2 := composeFallback ctx hint
    match runStream env 2 p2 with
    | (some d, es2) =>
      (.ok (d, fn), es1 ++ [.sleep 3] ++ es2 ++ [.saveLocal fn])
    | (none, es2) =>
      (.error genFailMsg, es1 ++ [.sleep 3] ++ es2)

/-- Lines 510-523: the metadata record handed to
`table("generated_images").insert(...)`.  `tile_id` is deliberately not a
key of this record. -/
def dbRecord (env : Env) (url : String) : List (String × DVal) :=
  [("user_id", .s env.user_id),
   ("home_id", optIntD env.body.home_id),
   ("chat_id", optIntD env.body.chat_id),
   ("prompt", .s (if env.body.prompt = "" then "Auto-generated" else env.body.prompt)),
   ("image_url", .s url)]

/-- Lines 481-550: storage upload, public-URL construction and metadata
insert; every failure is converted into a `success:false` envelope. -/
def persist (env : Env) (fn : String) : Outcome × List Effect :=
  match env.upload with
  | .error e =>
    (.failure (uploadFailPre ++ e), [.storageUpload env.bucket fn])
  | .ok _ =>
    match env.publicUrl with
    | .error _ =>
      (.failure urlFailMsg,
       [.storageUpload env.bucket fn, .getPublicUrl env.bucket fn])
    | .ok url =>
      let es := [Effect.storageUpload env.bucket fn,
                 Effect.getPublicUrl env.bucket fn,
                 Effect.dbInsert (dbRecord env url)]
      match env.insertRes with
      | .error e => (.failure (dbFailPre ++ e), es)
      | .ok [] => (.failure dbEmptyMsg, es)
      | .ok (r :: _) => (.successR r, es)

/-- The whole `generate_image` endpoint body (after authentication), from
validation to the final response. -/
def generateImage (env : Env) : Outcome × List Effect :=
  match preflight env with
  | (.error o, es0) => (o, es0)
  | (.ok (tu, hu), es0) =>
    match downloadBoth env tu hu with
    | (.error o, es1) => (o, es0 ++ es1)
    | (.ok _imgs, es1) =>
      let ctx := runAnalysisOutcome env.analyzer
      match attemptLoop env ctx with
      | (.error m, es3) =>
        (.failure m, es0 ++ es1 ++ [.analyzeCall] ++ es3)
      | (.ok (d, fn), es3) =>
        if d = [] then
          (.failure genFail2Msg, es0 ++ es1 ++ [.analyzeCall] ++ es3)
        else
          let pr := persist env fn
          (pr.1, es0 ++ es1 ++ [.analyzeCall] ++ es3 ++ pr.2)

/-! ## Generic helper definitions for the theorems -/

/-- A chunk carrying no usable payload slot at all. -/
def chunkNone : Chunk := ⟨[]⟩

/-- A chunk whose first part carries the given bytes inline. -/
def chunkWith (bs : List Nat) : Chunk := ⟨[⟨some ⟨[⟨some ⟨bs⟩⟩]⟩⟩]⟩

/-- Effects that belong to the persistence phase (storage upload, public-URL
construction, metadata insert). -/
def persistEffect : Effect → Bool
  | .storageUpload _ _ => true
  | .getPublicUrl _ _ => true
  | .dbInsert _ => true
  | _ => false

/-- Effects that are calls to the generation service. -/
def genServiceEffect : Effect → Bool
  | .analyzeCall => true
  | .genCall _ _ _ => true
  | _ => false

/-- Keys of an inserted metadata record. -/
def recordKeys (r : List (String × DVal)) : List String := r.map Prod.fst

/-- Value stored under a key of a metadata record. -/
def recordGet (r : List (String × DVal)) (k : String) : Option DVal :=
  (r.find? fun kv => kv.1 = k).map Prod.snd

/-! ## String and list helper lemmas -/

theorem string_ext_data {s t : String} (h : s.data = t.data) : s = t := by
  cases s; cases t; exact congrArg String.mk h

theorem head?_append_left {l m : List Char} {c : Char} (h : l.head? = some c) :
    (l ++ m).head? = some c := by
  rw [List.head?_append, h]; rfl

theorem dropWhile_eq_self_of_head {p : Char → Bool} {l : List Char} {c : Char}
    (hh : l.head? = some c) (hc : p c = false) : l.dropWhile p = l := by
  cases l with
  | nil => cases hh
  | cons a t =>
    have : a = c := by simpa using hh
    subst this
    simp [List.dropWhile_cons, hc]

theorem head?_dropWhile_false {p : Char → Bool} {x : List Char} {c : Char}
    (h : (x.dropWhile p).head? = some c) : p c = false := by
  induction x with
  | nil => cases h
  | cons a t ih =>
    by_cases hp : p a
    · rw [List.dropWhile_cons, if_pos hp] at h
      exact ih h
    · rw [List.dropWhile_cons, if_neg hp] at h
      have : a = c := by simpa using h
      subst this
      simpa using hp

theorem stripChars_eq_self {l : List Char} {c d : Char}
    (hh : l.head? = some c) (hc : isPySpace c = false)
    (hl : l.getLast? = some d) (hd : isPySpace d = false) :
    stripChars l = l := by
  unfold stripChars
  rw [dropWhile_eq_self_of_head hh hc]
  rw [dropWhile_eq_self_of_head (by rw [List.head?_reverse]; exact hl) hd]
  exact List.reverse_reverse l

theorem stripChars_getLast_not_space {l : List Char} {c : Char}
    (h : (stripChars l).getLast? = some c) : isPySpace c = false := by
  unfold stripChars at h
  rw [List.getLast?_reverse] at h
  exact head?_dropWhile_false h

theorem stripChars_nil_all_space {l : List Char} (h : stripChars l = []) :
    ∀ c ∈ l, isPySpace c = true := by
  unfold stripChars at h
  have h2 : (l.dropWhile isPySpace).reverse.dropWhile isPySpace = [] := by
    have := congrArg List.reverse h
    simpa using this
  have h3 : ∀ x ∈ (l.dropWhile isPySpace).reverse, isPySpace x := by
    exact List.dropWhile_eq_nil_iff.mp h2
  intro c hc
  rcases (List.mem_append.mp
      (by rw [List.takeWhile_append_dropWhile isPySpace l]; exact hc :
        c ∈ l.takeWhile isPySpace ++ l.dropWhile isPySpace)) with hmem | hmem
  · exact List.mem_takeWhile_imp hmem
  · exact h3 c (List.mem_reverse.mpr hmem)

theorem append_left_nil {a b : List Char} (h : a ++ b = b) : a = [] := by
  simpa using congrArg List.length h

theorem pyStrip_ne_empty_data {s : String} (h : pyStrip s ≠ "") :
    stripChars s.data ≠ [] := by
  intro hh
  exact h (string_ext_data (by simpa [pyStrip] using hh))

/-- Core disjointness argument: the raw hint (or the literal
`"Auto-generated"`) is never equal to `base ++ marker ++ strip(hint)` nor to
`base` alone, whenever `base` begins with a non-whitespace character other
than `A` and the marker is non-empty.  This is the shape of both composed
prompts. -/
theorem stored_ne_composed (base marker hint : String) (c : Char)
    (hB : base.data.head? = some c) (hc : isPySpace c = false) (hA : c ≠ 'A') :
    (if hint = "" then "Auto-generated" else hint) ≠
      base ++ (if hint ≠ "" && pyStrip hint ≠ "" then marker ++ pyStrip hint else "") := by
  by_cases h0 : hint = ""
  · have hcond : (hint ≠ "" && pyStrip hint ≠ "") = false := by simp [h0]
    rw [if_pos h0, hcond]
    simp only [Bool.false_eq_true, if_false]
    intro h
    have hdata := congrArg String.data h
    rw [String.data_append] at hdata
    have hempty : ("" : String).data = [] := rfl
    rw [hempty, List.append_nil] at hdata
    have hrhs : ("Auto-generated" : String).data.head? = some c := by
      rw [hdata]; exact hB
    have : 'A' = c := by simpa using hrhs
    exact hA this.symm
  · rw [if_neg h0]
    by_cases h1 : pyStrip hint = ""
    · have hcond : (hint ≠ "" && pyStrip hint ≠ "") = false := by simp [h1]
      rw [hcond]
      simp only [Bool.false_eq_true, if_false]
      intro h
      have hdata := congrArg String.data h
      rw [String.data_append] at hdata
      have hempty : ("" : String).data = [] := rfl
      rw [hempty, List.append_nil] at hdata
      have hall : ∀ x ∈ hint.data, isPySpace x = true := by
        apply stripChars_nil_all_space
        simpa [pyStrip] using congrArg String.data h1
      have hhead : hint.data.head? = some c := by rw [hdata]; exact hB
      have hmem : c ∈ hint.data := by
        cases hl : hint.data with
        | nil => rw [hl] at hhead; cases hhead
        | cons a t =>
          rw [hl] at hhead
          have : a = c := by simpa using hhead
          subst this
          exact List.mem_cons_self a t
      rw [hall c hmem] at hc
      cases hc
    · have hcond : (hint ≠ "" && pyStrip hint ≠ "") = true := by
        simp [h0, h1]
      rw [hcond]
      simp only [if_true]
      intro h
      have hdata := congrArg String.data h
      simp only [String.data_append] at hdata
      -- hint.data = base.data ++ (marker.data ++ (pyStrip hint).data)
      have hS : (pyStrip hint).data = stripChars hint.data := rfl
      have hSne : stripChars hint.data ≠ [] := pyStrip_ne_empty_data h1
      obtain ⟨d, hd⟩ : ∃ d, (stripChars hint.data).getLast? = some d := by
        cases hg : (stripChars hint.data).getLast? with
        | none => exact absurd (List.getLast?_eq_none_iff.mp hg) hSne
        | some d => exact ⟨d, rfl⟩
      have hdns : isPySpace d = false := stripChars_getLast_not_space hd
      have hlast : hint.data.getLast? = some d := by
        rw [hdata, hS, List.getLast?_append, List.getLast?_append, hd]
        rfl
      have hhead : hint.data.head? = some c := by
        rw [hdata]
        exact head?_append_left hB
      have hfix : stripChars hint.data = hint.data :=
        stripChars_eq_self hhead hc hlast hdns
      have hfix2 : (pyStrip hint).data = hint.data := by rw [hS, hfix]
      rw [hfix2] at hdata
      have hcat : (base.data ++ marker.data) ++ hint.data = hint.data := by
        rw [List.append_assoc]
        exact hdata.symm
      have hnil := append_left_nil hcat
      have hbd : base.data = [] := by
        cases hb : base.data with
        | nil => rfl
        | cons a t => rw [hb] at hnil; cases hnil
      rw [hbd] at hB
      cases hB

set_option maxRecDepth 100000 in
theorem pLit0_head : pLit0.data.head? = some 'Y' := by decide

theorem fbLit0_head : fbLit0.data.head? = some 'R' := by decide

theorem primaryBase_head (ctx : PDict) : (primaryBase ctx).data.head? = some 'Y' := by
  unfold primaryBase
  simp only [String.data_append, List.head?_append, pLit0_head]
  rfl

theorem composePrimary_head (ctx : PDict) (hint : String) :
    (composePrimary ctx hint).data.head? = some 'Y' := by
  unfold composePrimary
  rw [String.data_append]
  exact head?_append_left (primaryBase_head ctx)

theorem fallbackBase_head (ctx : PDict) : (fallbackBase ctx).data.head? = some 'R' := by
  unfold fallbackBase
  simp only [String.data_append, List.head?_append, fbLit0_head]
  rfl

theorem composeFallback_head (ctx : PDict) (hint : String) :
    (composeFallback ctx hint).data.head? = some 'R' := by
  unfold composeFallback
  rw [String.data_append]
  exact head?_append_left (fallbackBase_head ctx)

/-- The simplified prompt of attempt 2 is never the primary prompt. -/
theorem composeFallback_ne_primary (ctx : PDict) (hint : String) :
    composeFallback ctx hint ≠ composePrimary ctx hint := by
  intro h
  have h1 := composeFallback_head ctx hint
  rw [h, composePrimary_head ctx hint] at h1
  cases h1

/-- The stored prompt value (raw hint or `"Auto-generated"`) is never the
composed primary prompt. -/
theorem storedPrompt_ne_primary (ctx : PDict) (hint : String) :
    (if hint = "" then "Auto-generated" else hint) ≠ composePrimary ctx hint := by
  unfold composePrimary
  exact stored_ne_composed (primaryBase ctx) userReqPre hint 'Y'
    (primaryBase_head ctx) (by decide) (by decide)

/-- The stored prompt value is never the composed fallback prompt. -/
theorem storedPrompt_ne_fallback (ctx : PDict) (hint : String) :
    (if hint = "" then "Auto-generated" else hint) ≠ composeFallback ctx hint := by
  unfold composeFallback
  exact stored_ne_composed (fallbackBase ctx) userNotePre hint 'R'
    (fallbackBase_head ctx) (by decide) (by decide)

/-! ## Chunk-scan lemmas -/

theorem chunkPayload_ne_nil {c : Chunk} {d : List Nat}
    (h : chunkPayload c = some d) : d ≠ [] := by
  obtain ⟨cands⟩ := c
  cases cands with
  | nil => cases h
  | cons cand restc =>
    obtain ⟨ct?⟩ := cand
    cases ct? with
    | none => cases h
    | some ct =>
      obtain ⟨parts⟩ := ct
      cases parts with
      | nil => cases h
      | cons p restp =>
        obtain ⟨id?⟩ := p
        cases id? with
        | none => cases h
        | some b =>
          by_cases hb : b.data = []
          · simp [chunkPayload, hb] at h
          · simp [chunkPayload, hb] at h
            rw [← h]
            exact hb

theorem scanChunks_payload_ne_nil :
    ∀ {cs : List Chunk} {d : List Nat} {n : Nat},
      scanChunks cs = (some d, n) → d ≠ [] := by
  intro cs
  induction cs with
  | nil => intro d n h; cases h
  | cons c rest ih =>
    intro d n h
    unfold scanChunks at h
    cases hc : chunkPayload c with
    | some d2 =>
      rw [hc] at h
      have hd : d2 = d := by simpa using congrArg Prod.fst h
      subst hd
      exact chunkPayload_ne_nil hc
    | none =>
      rw [hc] at h
      have h1 : (scanChunks rest).1 = some d := by
        simpa using congrArg Prod.fst h
      exact ih (Prod.ext h1 rfl)

/-- First-payload-wins with exact consumption count: if the chunks before
position `i` carry no payload and the chunk at `i` carries payload `d`, the
scan returns `d` having consumed exactly `i + 1` chunks. -/
theorem scanChunks_first :
    ∀ (cs : List Chunk) (i : Nat) (d : List Nat) (h : i < cs.length),
      (∀ j (hj : j < i), chunkPayload (cs.get ⟨j, hj.trans h⟩) = none) →
      chunkPayload (cs.get ⟨i, h⟩) = some d →
      scanChunks cs = (some d, i + 1) := by
  intro cs
  induction cs with
  | nil => intro i d h; cases h
  | cons c rest ih =>
    intro i d h hfirst hp
    cases i with
    | zero =>
      have hp0 : chunkPayload c = some d := hp
      unfold scanChunks
      rw [hp0]
    | succ j =>
      have hc0 : chunkPayload c = none := hfirst 0 (Nat.succ_pos j)
      have hrest := ih j d (Nat.lt_of_succ_lt_succ h)
        (fun k hk => hfirst (k + 1) (Nat.succ_lt_succ hk)) hp
      unfold scanChunks
      rw [hc0]
      simp [hrest]

/-! ## Stage-shape lemmas -/

/-- Database-select effects (the only effects the preflight stage emits). -/
def dbSelectOnly : Effect → Bool
  | .dbSelectTiles _ _ => true
  | .dbSelectHomes _ _ => true
  | _ => false

theorem dbSelectOnly_not_persist {e : Effect} (h : dbSelectOnly e = true) :
    persistEffect e = false ∧ genServiceEffect e = false := by
  cases e <;> simp_all [dbSelectOnly, persistEffect, genServiceEffect]

theorem resolveTileUrl_effects (env : Env) :
    ∀ e ∈ (resolveTileUrl env).2, dbSelectOnly e = true := by
  unfold resolveTileUrl
  split
  · split
    · split <;> (intro e he; simp at he; rw [he]; rfl)
    · intro e he; cases he
  · intro e he; cases he

theorem resolveHomeUrl_effects (env : Env) :
    ∀ e ∈ (resolveHomeUrl env).2, dbSelectOnly e = true := by
  unfold resolveHomeUrl
  split
  · split
    · split <;> (intro e he; simp at he; rw [he]; rfl)
    · intro e he; cases he
  · intro e he; cases he

theorem preflight_effects (env : Env) :
    ∀ e ∈ (preflight env).2, dbSelectOnly e = true := by
  unfold preflight
  split
  · intro e he; cases he
  · split
    · intro e he; cases he
    · cases h1 : resolveTileUrl env with
      | mk r1 es1 =>
        cases r1 with
        | error o =>
          intro e he
          have := resolveTileUrl_effects env e
          rw [h1] at this
          exact this he
        | ok tu =>
          cases h2 : resolveHomeUrl env with
          | mk r2 es2 =>
            cases r2 with
            | error o =>
              intro e he
              simp only [List.mem_append] at he
              rcases he with he | he
              · have := resolveTileUrl_effects env e; rw [h1] at this; exact this he
              · have := resolveHomeUrl_effects env e; rw [h2] at this; exact this he
            | ok hu =>
              cases env.api_key with
              | none =>
                intro e he
                simp only [List.mem_append] at he
                rcases he with he | he
                · have := resolveTileUrl_effects env e; rw [h1] at this; exact this he
                · have := resolveHomeUrl_effects env e; rw [h2] at this; exact this he
              | some k =>
                intro e he
                simp only [List.mem_append] at he
                rcases he with he | he
                · have := resolveTileUrl_effects env e; rw [h1] at this; exact this he
                · have := resolveHomeUrl_effects env e; rw [h2] at this; exact this he

theorem downloadBoth_ok_effects {env : Env} {tu hu : String}
    {bs : List Nat × List Nat} {es : List Effect}
    (h : downloadBoth env tu hu = (.ok bs, es)) :
    es = [.httpGet tu, .httpGet hu] := by
  unfold downloadBoth at h
  split at h
  · cases h
  · split at h
    · cases h
    · exact (congrArg Prod.snd h).symm

theorem attemptPayload_ne_nil {env : Env} {a : Nat} {d : List Nat}
    (h : attemptPayload env a = some d) : d ≠ [] := by
  unfold attemptPayload at h
  cases hs : env.stream a with
  | raiseErr => rw [hs] at h; cases h
  | chunks cs =>
    rw [hs] at h
    change (scanChunks cs).1 = some d at h
    cases hp : scanChunks cs with
    | mk f s =>
      rw [hp] at h
      simp only at h
      rw [h] at hp
      exact scanChunks_payload_ne_nil hp

/-- Reduction of the attempt loop when attempt 1 yields a payload. -/
theorem attemptLoop_success1 (env : Env) (ctx : PDict) {d : List Nat}
    (h1 : attemptPayload env 1 = some d) :
    attemptLoop env ctx =
      (.ok (d, fileNameOf env),
       [.genCall 1 (composePrimary ctx env.body.prompt) (attemptConsumed env 1),
        .saveLocal (fileNameOf env)]) := by
  unfold attemptLoop runStream
  rw [h1]
  simp

/-- Reduction of the attempt loop when attempt 1 fails and attempt 2 yields
a payload. -/
theorem attemptLoop_fail1_success2 (env : Env) (ctx : PDict) {d : List Nat}
    (h1 : attemptPayload env 1 = none) (h2 : attemptPayload env 2 = some d) :
    attemptLoop env ctx =
      (.ok (d, fileNameOf env),
       [.genCall 1 (composePrimary ctx env.body.prompt) (attemptConsumed env 1),
        .sleep 3,
        .genCall 2 (composeFallback ctx env.body.prompt) (attemptConsumed env 2),
        .saveLocal (fileNameOf env)]) := by
  unfold attemptLoop runStream
  rw [h1, h2]
  simp

/-- Reduction of the attempt loop when both attempts fail. -/
theorem attemptLoop_allFail (env : Env) (ctx : PDict)
    (h1 : attemptPayload env 1 = none) (h2 : attemptPayload env 2 = none) :
    attemptLoop env ctx =
      (.error genFailMsg,
       [.genCall 1 (composePrimary ctx env.body.prompt) (attemptConsumed env 1),
        .sleep 3,
        .genCall 2 (composeFallback ctx env.body.prompt) (attemptConsumed env 2)]) := by
  unfold attemptLoop runStream
  rw [h1, h2]
  simp

/-! ## Claim C1 -/

theorem extractJson_all_space {l : List Char}
    (hall : ∀ c ∈ l, isPySpace c = true) : extractJson l = none := by
  induction l with
  | nil => rfl
  | cons c rest ih =>
    have hc := hall c (List.mem_cons_self c rest)
    have hne : ¬ c = lbraceC := by
      intro h
      subst h
      rw [show isPySpace lbraceC = false by decide] at hc
      cases hc
    unfold extractJson
    rw [if_neg hne]
    exact ih fun x hx => hall x (List.mem_cons_of_mem c hx)

/-- The analyzer response text used to refute claim C1: a well-formed JSON
object containing `surface_type` and `region_description` but neither
`estimated_tile_size` nor `lighting_condition`. -/
def c1Text : String :=
  "\x7b\"surface_type\": \"wall\", \"region_description\": \"the back wall\"\x7d"

/-- Claim C1 counterexample: the analyzer response `c1Text` parses to an
object that is missing two of the four required keys
(`estimated_tile_size`, `lighting_condition`), yet the resulting scene
context is NOT the default tuple: the two present keys are merged
field-by-field while the missing ones keep their defaults.  The claim that
such a response leaves the context at the default tuple exactly is
therefore false. -/
theorem c1_counterexample :
    jsonParseFlat ((extractJson c1Text.data).getD []) =
      some [("surface_type", "wall"), ("region_description", "the back wall")] ∧
    hasKey [("surface_type", "wall"), ("region_description", "the back wall")]
      "estimated_tile_size" = false ∧
    hasKey [("surface_type", "wall"), ("region_description", "the back wall")]
      "lighting_condition" = false ∧
    analyzeFromText c1Text ≠ defaultContext ∧
    analyzeFromText c1Text =
      [("surface_type", "wall"), ("estimated_tile_size", "medium"),
       ("region_description", "the back wall"), ("lighting_condition", "natural")] := by
  refine ⟨by decide, by decide, by decide, by decide, by decide⟩

/-- Claim C1 (amended): the scene context is overwritten exactly when the
extracted and decoded analyzer object contains both `surface_type` and
`region_description` (the other two keys are not checked), and the
overwrite is a field-by-field dict merge into the defaults rather than a
whole-tuple replacement; when either checked key is missing the context
stays at the default tuple exactly. -/
theorem c1_context_merge (t : String) (cand : List Char) (p : PDict)
    (hx : extractJson t.data = some cand) (hpp : jsonParseFlat cand = some p) :
    ((hasKey p "surface_type" && hasKey p "region_description") = false →
       analyzeFromText t = defaultContext) ∧
    ((hasKey p "surface_type" && hasKey p "region_description") = true →
       analyzeFromText t = dictUpdate defaultContext p) := by
  have h1 : ¬ t = "" := by
    intro h
    rw [h] at hx
    cases hx
  have h2 : ¬ stripChars t.data = [] := by
    intro h
    rw [extractJson_all_space (stripChars_nil_all_space h)] at hx
    cases hx
  have hguard : (decide (t = "") || decide (stripChars t.data = [])) = false := by
    simp [h1, h2]
  constructor <;> intro hkeys <;>
    · unfold analyzeFromText
      rw [hguard]
      simp only [Bool.false_eq_true, if_false, hx, hpp]
      unfold applyParsed
      rw [hkeys]
      simp

/-- Analyzer text whose object lacks `surface_type`: the merge guard fails
and the defaults survive. -/
def c1WitText : String := "\x7b\"estimated_tile_size\": \"small\"\x7d"

/-- Witness for the amended claim C1 at a concrete response text. -/
theorem c1_context_merge_witness :
    analyzeFromText c1WitText = defaultContext :=
  (c1_context_merge c1WitText c1WitText.data [("estimated_tile_size", "small")]
    (by decide) (by decide)).1 (by decide)

/-! ## Pipeline reduction helpers and a base environment for witnesses -/

def isGenCall : Effect → Bool
  | .genCall _ _ _ => true
  | _ => false

def bodyBase : GenerateRequestModel :=
  { tile_url := some "http://img.example/tile.jpg"
    home_url := some "http://img.example/home.jpg"
    tile_id := none
    home_id := none
    chat_id := none
    prompt := ""
    surface := "auto" }

def envBase : Env :=
  { user_id := "user-1"
    body := bodyBase
    tiles := []
    homes := []
    api_key := some "k"
    bucket := "generated"
    now := 1700000000
    fetch := fun _ => .resp 200 [1, 2, 3]
    analyzer := .raiseErr
    stream := fun _ => .chunks [chunkWith [7, 7]]
    upload := .ok ()
    publicUrl := .ok "https://pub.example/generated/x.jpg"
    insertRes := .ok [[("id", "1")]] }

theorem generateImage_missingTile (env : Env)
    (h : (strFalsy env.body.tile_url && intFalsy env.body.tile_id) = true) :
    generateImage env = (.httpError 400 msgMissingTile, []) := by
  unfold generateImage preflight
  rw [h]
  simp

theorem generateImage_missingHome (env : Env)
    (h1 : (strFalsy env.body.tile_url && intFalsy env.body.tile_id) = false)
    (h2 : (strFalsy env.body.home_url && intFalsy env.body.home_id) = true) :
    generateImage env = (.httpError 400 msgMissingHome, []) := by
  unfold generateImage preflight
  rw [h1, h2]
  simp

theorem resolveTileUrl_notFound (env : Env) (n : Int)
    (hurl : strFalsy env.body.tile_url = true)
    (hid : env.body.tile_id = some n) (hn : ¬ n = 0)
    (hlook : lookupRows env.tiles n env.user_id = []) :
    resolveTileUrl env =
      (.error (.httpError 404 ("Tile with ID " ++ toString n ++ msgNotFoundSuffix)),
       [.dbSelectTiles n env.user_id]) := by
  unfold resolveTileUrl
  rw [hid]
  simp only [hurl, Bool.true_and]
  rw [if_pos (by simp [hn])]
  rw [hlook]

theorem resolveTileUrl_urlGiven (env : Env) (u : String)
    (hurl : env.body.tile_url = some u) (hu : ¬ u = "") :
    resolveTileUrl env = (.ok u, []) := by
  unfold resolveTileUrl
  have hf : strFalsy env.body.tile_url = false := by simp [hurl, strFalsy, hu]
  cases hid : env.body.tile_id with
  | none => simp [hurl, optStr]
  | some n =>
    rw [hf]
    simp [hurl, optStr]

theorem resolveHomeUrl_notFound (env : Env) (n : Int)
    (hurl : strFalsy env.body.home_url = true)
    (hid : env.body.home_id = some n) (hn : ¬ n = 0)
    (hlook : lookupRows env.homes n env.user_id = []) :
    resolveHomeUrl env =
      (.error (.httpError 404 ("Home with ID " ++ toString n ++ msgNotFoundSuffix)),
       [.dbSelectHomes n env.user_id]) := by
  unfold resolveHomeUrl
  rw [hid]
  simp only [hurl, Bool.true_and]
  rw [if_pos (by simp [hn])]
  rw [hlook]

theorem generateImage_tile404 (env : Env) (n : Int)
    (hurl : strFalsy env.body.tile_url = true)
    (hid : env.body.tile_id = some n) (hn : ¬ n = 0)
    (hhome : (strFalsy env.body.home_url && intFalsy env.body.home_id) = false)
    (hlook : lookupRows env.tiles n env.user_id = []) :
    generateImage env =
      (.httpError 404 ("Tile with ID " ++ toString n ++ msgNotFoundSuffix),
       [.dbSelectTiles n env.user_id]) := by
  have hr := resolveTileUrl_notFound env n hurl hid hn hlook
  have hv1 : (strFalsy env.body.tile_url && intFalsy env.body.tile_id) = false := by
    rw [hid]
    simp [intFalsy, hn]
  unfold generateImage preflight
  rw [hv1, hhome, hr]
  simp

theorem generateImage_home404 (env : Env) (u : String) (m : Int)
    (htile : env.body.tile_url = some u) (hu : ¬ u = "")
    (hurl : strFalsy env.body.home_url = true)
    (hid : env.body.home_id = some m) (hm : ¬ m = 0)
    (hlook : lookupRows env.homes m env.user_id = []) :
    generateImage env =
      (.httpError 404 ("Home with ID " ++ toString m ++ msgNotFoundSuffix),
       [.dbSelectHomes m env.user_id]) := by
  have hr1 := resolveTileUrl_urlGiven env u htile hu
  have hr2 := resolveHomeUrl_notFound env m hurl hid hm hlook
  have hv1 : (strFalsy env.body.tile_url && intFalsy env.body.tile_id) = false := by
    simp [htile, strFalsy, hu]
  have hv2 : (strFalsy env.body.home_url && intFalsy env.body.home_id) = false := by
    rw [hid]
    simp [intFalsy, hm]
  unfold generateImage preflight
  rw [hv1, hv2, hr1, hr2]
  simp

/-! ## Claim C2 -/

/-- Claim C2: for every synthesis attempt the executor consumes the chunk
sequence in order, returns the first non-empty inline binary payload, and
consumes no chunk after the one carrying that payload (exactly `i + 1`
chunks are consumed when the payload sits at index `i`). -/
theorem c2_first_payload (env : Env) (a : Nat) (promptText : String)
    (cs : List Chunk) (i : Nat) (d : List Nat)
    (hstream : env.stream a = .chunks cs) (h : i < cs.length)
    (hfirst : ∀ j (hj : j < i), chunkPayload (cs.get ⟨j, hj.trans h⟩) = none)
    (hp : chunkPayload (cs.get ⟨i, h⟩) = some d) :
    runStream env a promptText = (some d, [.genCall a promptText (i + 1)]) ∧
    i + 1 ≤ cs.length := by
  have hs := scanChunks_first cs i d h hfirst hp
  constructor
  · unfold runStream attemptPayload attemptConsumed
    simp only [hstream, hs]
  · exact h

/-- Stream for the C2 witness: three payload-free chunks, then a payload,
then a further chunk that must never be consumed. -/
def c2Chunks : List Chunk :=
  [chunkNone, chunkNone, chunkNone, chunkWith [7, 8], chunkWith [9, 9]]

def envC2 : Env := { envBase with stream := fun _ => .chunks c2Chunks }

/-- Witness for claim C2: with the 5-chunk stream above, the fourth chunk
payload is returned and exactly 4 of the 5 chunks are consumed. -/
theorem c2_first_payload_witness :
    runStream envC2 1 "p" = (some [7, 8], [.genCall 1 "p" 4]) ∧
    4 ≤ c2Chunks.length :=
  c2_first_payload envC2 1 "p" c2Chunks 3 [7, 8] rfl (by decide) (by decide)
    (by decide)

/-! ## Claim C3 -/

/-- Claim C3: attempt 1 always uses the primary prompt; when it yields no
payload the loop sleeps exactly 3 seconds and runs attempt 2 with the
fallback prompt, which is never the primary prompt; the loop performs at
most 2 attempts and stops immediately when an attempt yields a payload. -/
theorem c3_attempt_schedule (env : Env) (ctx : PDict) :
    composeFallback ctx env.body.prompt ≠ composePrimary ctx env.body.prompt ∧
    (∀ d : List Nat, attemptPayload env 1 = some d →
       attemptLoop env ctx =
         (.ok (d, fileNameOf env),
          [.genCall 1 (composePrimary ctx env.body.prompt) (attemptConsumed env 1),
           .saveLocal (fileNameOf env)])) ∧
    (attemptPayload env 1 = none →
       (attemptLoop env ctx).2.take 3 =
         [.genCall 1 (composePrimary ctx env.body.prompt) (attemptConsumed env 1),
          .sleep 3,
          .genCall 2 (composeFallback ctx env.body.prompt) (attemptConsumed env 2)]) ∧
    (attemptLoop env ctx).2.countP isGenCall ≤ 2 := by
  refine ⟨composeFallback_ne_primary ctx env.body.prompt, ?_, ?_, ?_⟩
  · intro d h1
    exact attemptLoop_success1 env ctx h1
  · intro h1
    cases h2 : attemptPayload env 2 with
    | some d =>
      rw [attemptLoop_fail1_success2 env ctx h1 h2]
      rfl
    | none =>
      rw [attemptLoop_allFail env ctx h1 h2]
      rfl
  · cases h1 : attemptPayload env 1 with
    | some d =>
      rw [attemptLoop_success1 env ctx h1]
      simp [List.countP_cons, isGenCall]
    | none =>
      cases h2 : attemptPayload env 2 with
      | some d =>
        rw [attemptLoop_fail1_success2 env ctx h1 h2]
        simp [List.countP_cons, isGenCall]
      | none =>
        rw [attemptLoop_allFail env ctx h1 h2]
        simp [List.countP_cons, isGenCall]

def envC3 : Env := { envBase with stream := fun _ => .raiseErr }

/-- Witness for claim C3 at a concrete environment whose attempt 1 raises:
the trace begins with the primary-prompt call, the fixed 3-second sleep and
the fallback-prompt call. -/
theorem c3_attempt_schedule_witness :
    (attemptLoop envC3 defaultContext).2.take 3 =
      [.genCall 1 (composePrimary defaultContext "") 0,
       .sleep 3,
       .genCall 2 (composeFallback defaultContext "") 0] :=
  (c3_attempt_schedule envC3 defaultContext).2.2.1 rfl

/-! ## Claim C4 -/

/-- Claim C4: when both generation attempts are exhausted without a payload
the endpoint returns the `success:false` envelope with the generic
user-safe message (never a raised server error), and no persistence
operation (storage upload, public-URL construction, metadata insert) is
performed. -/
theorem c4_exhausted_no_persistence (env : Env) (tu hu : String)
    (es0 : List Effect) (bs : List Nat × List Nat) (es1 : List Effect)
    (hp : preflight env = (.ok (tu, hu), es0))
    (hd : downloadBoth env tu hu = (.ok bs, es1))
    (h1 : attemptPayload env 1 = none) (h2 : attemptPayload env 2 = none) :
    (generateImage env).1 = .failure genFailMsg ∧
    ∀ e ∈ (generateImage env).2, persistEffect e = false := by
  have hloop := attemptLoop_allFail env (runAnalysisOutcome env.analyzer) h1 h2
  have hgen : generateImage env =
      (.failure genFailMsg,
       es0 ++ es1 ++ [.analyzeCall] ++
         [.genCall 1 (composePrimary (runAnalysisOutcome env.analyzer) env.body.prompt)
            (attemptConsumed env 1),
          .sleep 3,
          .genCall 2 (composeFallback (runAnalysisOutcome env.analyzer) env.body.prompt)
            (attemptConsumed env 2)]) := by
    unfold generateImage
    rw [hp]
    simp only
    rw [hd]
    simp only
    rw [hloop]
  rw [hgen]
  refine ⟨rfl, ?_⟩
  intro e he
  rcases List.mem_append.mp he with he2 | h
  · rcases List.mem_append.mp he2 with he3 | h
    · rcases List.mem_append.mp he3 with h | h
      · have := preflight_effects env e
        rw [hp] at this
        exact (dbSelectOnly_not_persist (this h)).1
      · rw [downloadBoth_ok_effects hd] at h
        simp only [List.mem_cons, List.not_mem_nil, or_false] at h
        rcases h with rfl | rfl <;> rfl
    · simp only [List.mem_singleton] at h
      subst h
      rfl
  · simp only [List.mem_cons, List.not_mem_nil, or_false] at h
    rcases h with rfl | rfl | rfl <;> rfl

def envC4 : Env := { envBase with stream := fun _ => .raiseErr }

/-- Witness for claim C4 at a concrete environment with two raising
streams. -/
theorem c4_exhausted_no_persistence_witness :
    (generateImage envC4).1 = .failure genFailMsg ∧
    ∀ e ∈ (generateImage envC4).2, persistEffect e = false :=
  c4_exhausted_no_persistence envC4
    "http://img.example/tile.jpg" "http://img.example/home.jpg"
    [] ([1, 2, 3], [1, 2, 3])
    [.httpGet "http://img.example/tile.jpg", .httpGet "http://img.example/home.jpg"]
    rfl rfl rfl rfl

/-! ## Claim C5 -/

def envC5 : Env :=
  { envBase with
    fetch := fun u =>
      if u = "http://img.example/tile.jpg" then .resp 201 [9] else .resp 200 [1] }

/-- Claim C5 counterexample: an HTTP 201 response is in the 2xx class, yet
the tile download is rejected with a 400 download error and the request
aborts; the download therefore does not succeed exactly on 2xx statuses,
but only on status 200. -/
theorem c5_counterexample :
    (200 ≤ 201 ∧ 201 < 300) ∧
    generateImage envC5 =
      (.httpError 400 "Failed to download tile image: HTTP 201",
       [.httpGet "http://img.example/tile.jpg"]) := by
  exact ⟨⟨by decide, by decide⟩, by decide⟩

/-- Claim C5 (amended): an image download succeeds exactly when the HTTP
status is exactly 200 (any other status, including other 2xx codes, fails);
download failure, timeout and transport failure are each reported as
request-level HTTP 400 errors; and failure of either the tile or the home
download aborts the request with no generation-service call and no
partial-download retry. -/
theorem c5_download_failures (env : Env) (tu hu : String) (es0 : List Effect)
    (hp : preflight env = (.ok (tu, hu), es0)) :
    ((∀ r which, (∃ b, dlOutcome r which = .ok b) ↔ ∃ c, r = .resp 200 c) ∧
     (∀ r which st msg, dlOutcome r which = .error (st, msg) → st = 400)) ∧
    (∀ st msg, dlOutcome (env.fetch tu) "tile" = .error (st, msg) →
       generateImage env = (.httpError st msg, es0 ++ [.httpGet tu]) ∧
       ∀ e ∈ es0 ++ [Effect.httpGet tu], genServiceEffect e = false) ∧
    (∀ b st msg, dlOutcome (env.fetch tu) "tile" = .ok b →
       dlOutcome (env.fetch hu) "home" = .error (st, msg) →
       generateImage env = (.httpError st msg, es0 ++ [.httpGet tu, .httpGet hu]) ∧
       ∀ e ∈ es0 ++ [Effect.httpGet tu, Effect.httpGet hu],
         genServiceEffect e = false) := by
  have hes0 : ∀ e ∈ es0, genServiceEffect e = false := by
    intro e he
    have := preflight_effects env e
    rw [hp] at this
    exact (dbSelectOnly_not_persist (this he)).2
  refine ⟨⟨?_, ?_⟩, ?_, ?_⟩
  · intro r which
    cases r with
    | resp st c =>
      by_cases h200 : st = 200
      · subst h200
        constructor
        · intro _; exact ⟨c, rfl⟩
        · intro _; exact ⟨c, by simp [dlOutcome]⟩
      · constructor
        · intro hb
          obtain ⟨b, hb⟩ := hb
          rw [dlOutcome, if_pos h200] at hb
          cases hb
        · intro hc
          obtain ⟨c2, hc⟩ := hc
          cases hc
          exact absurd rfl h200
    | timeoutExc =>
      constructor
      · intro hb; obtain ⟨b, hb⟩ := hb; cases hb
      · intro hc; obtain ⟨c2, hc⟩ := hc; cases hc
    | requestErr m =>
      constructor
      · intro hb; obtain ⟨b, hb⟩ := hb; cases hb
      · intro hc; obtain ⟨c2, hc⟩ := hc; cases hc
  · intro r which st msg h
    cases r with
    | resp st2 c =>
      by_cases h200 : st2 = 200
      · subst h200
        simp [dlOutcome] at h
      · simp only [dlOutcome] at h
        rw [if_pos h200] at h
        injection Except.error.inj h with ha hb
        exact ha.symm
    | timeoutExc =>
      injection Except.error.inj h with ha hb
      exact ha.symm
    | requestErr m =>
      injection Except.error.inj h with ha hb
      exact ha.symm
  · intro st msg herr
    have hgen : generateImage env = (.httpError st msg, es0 ++ [.httpGet tu]) := by
      unfold generateImage
      rw [hp]
      simp only
      unfold downloadBoth
      rw [herr]
    refine ⟨hgen, ?_⟩
    intro e he
    rcases List.mem_append.mp he with h | h
    · exact hes0 e h
    · simp only [List.mem_cons, List.not_mem_nil, or_false] at h
      subst h
      rfl
  · intro b st msg hok herr
    have hgen : generateImage env =
        (.httpError st msg, es0 ++ [.httpGet tu, .httpGet hu]) := by
      unfold generateImage
      rw [hp]
      simp only
      unfold downloadBoth
      rw [hok, herr]
    refine ⟨hgen, ?_⟩
    intro e he
    rcases List.mem_append.mp he with h | h
    · exact hes0 e h
    · simp only [List.mem_cons, List.not_mem_nil, or_false] at h
      rcases h with rfl | rfl <;> rfl

def envC5b : Env := { envBase with fetch := fun _ => .timeoutExc }

/-- Witness for the amended claim C5: a timeout on the tile download yields
the 400 timeout error with only the tile fetch in the trace. -/
theorem c5_download_failures_witness :
    generateImage envC5b =
      (.httpError 400 msgTimeout, [.httpGet "http://img.example/tile.jpg"]) ∧
    ∀ e ∈ ([] : List Effect) ++ [Effect.httpGet "http://img.example/tile.jpg"],
      genServiceEffect e = false := by
  have h := (c5_download_failures envC5b
    "http://img.example/tile.jpg" "http://img.example/home.jpg" []
    rfl).2.1 400 msgTimeout rfl
  exact ⟨h.1, h.2⟩

/-! ## Claim C6 -/

/-- Claim C6: a request missing both tile sources (or both home sources)
fails immediately, before any network or database call, with a raised typed
HTTP 400 error, and a supplied catalog identifier that resolves to no
record fails with a raised typed HTTP 404 error; neither failure uses the
`success:false` envelope. -/
theorem c6_preflight_validation (env : Env) :
    (env.body.tile_url = none → env.body.tile_id = none →
       generateImage env = (.httpError 400 msgMissingTile, [])) ∧
    ((strFalsy env.body.tile_url && intFalsy env.body.tile_id) = false →
     env.body.home_url = none → env.body.home_id = none →
       generateImage env = (.httpError 400 msgMissingHome, [])) ∧
    (∀ n : Int, env.body.tile_url = none → env.body.tile_id = some n → ¬ n = 0 →
       (strFalsy env.body.home_url && intFalsy env.body.home_id) = false →
       lookupRows env.tiles n env.user_id = [] →
       generateImage env =
         (.httpError 404 ("Tile with ID " ++ toString n ++ msgNotFoundSuffix),
          [.dbSelectTiles n env.user_id])) ∧
    (∀ u (m : Int), env.body.tile_url = some u → ¬ u = "" →
       env.body.home_url = none → env.body.home_id = some m → ¬ m = 0 →
       lookupRows env.homes m env.user_id = [] →
       generateImage env =
         (.httpError 404 ("Home with ID " ++ toString m ++ msgNotFoundSuffix),
          [.dbSelectHomes m env.user_id])) := by
  refine ⟨?_, ?_, ?_, ?_⟩
  · intro h1 h2
    exact generateImage_missingTile env (by rw [h1, h2]; rfl)
  · intro h1 h2 h3
    exact generateImage_missingHome env h1 (by rw [h2, h3]; rfl)
  · intro n h1 h2 h3 h4 h5
    exact generateImage_tile404 env n (by rw [h1]; rfl) h2 h3 h4 h5
  · intro u m h1 h2 h3 h4 h5 h6
    exact generateImage_home404 env u m h1 h2 (by rw [h3]; rfl) h4 h5 h6

def envC6 : Env :=
  { envBase with body := { bodyBase with tile_url := none, home_url := none } }

/-- Witness for claim C6: a request with no tile source at all is rejected
with the typed 400 before any effect. -/
theorem c6_preflight_validation_witness :
    generateImage envC6 = (.httpError 400 msgMissingTile, []) :=
  (c6_preflight_validation envC6).1 rfl rfl

/-! ## Claim C7 -/

/-- Claim C7: no outcome of the context-analysis call ever surfaces as a
user-visible error: whatever the analyzer returns (exception/timeout, empty
text, no JSON object, malformed object, or valid object), the pipeline
composes a primary prompt from the resulting context and reaches generation
attempt 1; and when the analyzer raised (e.g. timed out), the scene context
is exactly the default tuple with `surface_type = "floor"`. -/
theorem c7_analysis_never_blocks (env : Env) (tu hu : String)
    (es0 : List Effect) (bs : List Nat × List Nat) (es1 : List Effect)
    (hp : preflight env = (.ok (tu, hu), es0))
    (hd : downloadBoth env tu hu = (.ok bs, es1)) :
    (∃ rest : List Effect,
       (generateImage env).2 =
         es0 ++ es1 ++ [.analyzeCall] ++
           Effect.genCall 1
             (composePrimary (runAnalysisOutcome env.analyzer) env.body.prompt)
             (attemptConsumed env 1) :: rest) ∧
    (env.analyzer = .raiseErr →
       runAnalysisOutcome env.analyzer = defaultContext ∧
       dictGet (runAnalysisOutcome env.analyzer) "surface_type" "floor" = "floor") := by
  constructor
  · cases h1 : attemptPayload env 1 with
    | some d =>
      have hne : ¬ d = [] := attemptPayload_ne_nil h1
      have hloop := attemptLoop_success1 env (runAnalysisOutcome env.analyzer) h1
      refine ⟨[.saveLocal (fileNameOf env)] ++
        (persist env (fileNameOf env)).2, ?_⟩
      unfold generateImage
      rw [hp]
      simp only
      rw [hd]
      simp only
      rw [hloop]
      simp [hne]
    | none =>
      cases h2 : attemptPayload env 2 with
      | some d =>
        have hne : ¬ d = [] := attemptPayload_ne_nil h2
        have hloop := attemptLoop_fail1_success2 env (runAnalysisOutcome env.analyzer) h1 h2
        refine ⟨[.sleep 3,
          .genCall 2 (composeFallback (runAnalysisOutcome env.analyzer) env.body.prompt)
            (attemptConsumed env 2),
          .saveLocal (fileNameOf env)] ++ (persist env (fileNameOf env)).2, ?_⟩
        unfold generateImage
        rw [hp]
        simp only
        rw [hd]
        simp only
        rw [hloop]
        simp [hne]
      | none =>
        have hloop := attemptLoop_allFail env (runAnalysisOutcome env.analyzer) h1 h2
        refine ⟨[.sleep 3,
          .genCall 2 (composeFallback (runAnalysisOutcome env.analyzer) env.body.prompt)
            (attemptConsumed env 2)], ?_⟩
        unfold generateImage
        rw [hp]
        simp only
        rw [hd]
        simp only
        rw [hloop]
  · intro ha
    rw [ha]
    exact ⟨rfl, by decide⟩

def envC7 : Env := { envBase with analyzer := .raiseErr }

/-- Witness for claim C7: with an analyzer that raises (timeout), the
pipeline still reaches attempt 1 with the default-derived primary prompt
and the context stays at the defaults. -/
theorem c7_analysis_never_blocks_witness :
    (∃ rest : List Effect,
       (generateImage envC7).2 =
         ([] : List Effect) ++
           [.httpGet "http://img.example/tile.jpg",
            .httpGet "http://img.example/home.jpg"] ++
           [.analyzeCall] ++
           Effect.genCall 1
             (composePrimary (runAnalysisOutcome envC7.analyzer) envC7.body.prompt)
             (attemptConsumed envC7 1) :: rest) ∧
    runAnalysisOutcome envC7.analyzer = defaultContext ∧
    dictGet (runAnalysisOutcome envC7.analyzer) "surface_type" "floor" = "floor" := by
  have h := c7_analysis_never_blocks envC7
    "http://img.example/tile.jpg" "http://img.example/home.jpg"
    [] ([1, 2, 3], [1, 2, 3])
    [.httpGet "http://img.example/tile.jpg", .httpGet "http://img.example/home.jpg"]
    rfl rfl
  exact ⟨h.1, h.2 rfl⟩

/-! ## Claim C8 -/

theorem str_append_assoc (a b c : String) : (a ++ b) ++ c = a ++ (b ++ c) := by
  apply string_ext_data
  simp [String.data_append, List.append_assoc]

theorem prefix_append_ne {pre g : String} (i : Nat) (hi : i < pre.data.length)
    (hne : ¬ pre.data[i]? = g.data[i]?) : ∀ e, ¬ pre ++ e = g := by
  intro e h
  have hd := congrArg String.data h
  rw [String.data_append] at hd
  have h2 : (pre.data ++ e.data)[i]? = pre.data[i]? := List.getElem?_append_left hi
  rw [hd] at h2
  exact hne h2.symm

/-- The acknowledgement markers of the persistence-failure messages. -/
def ackGenerated : String := "Image generated"

def ackUploaded : String := "Image uploaded"

theorem uploadFailPre_split :
    uploadFailPre = ackGenerated ++ " successfully but failed to upload to storage: " := rfl

theorem dbFailPre_split :
    dbFailPre = ackGenerated ++ " but failed to save to database: " := rfl

theorem urlFailMsg_split :
    urlFailMsg = ackUploaded ++ " but failed to generate public URL. Please contact support." := rfl

theorem dbEmptyMsg_split :
    dbEmptyMsg = ackGenerated ++ " but failed to save record. Please contact support." := rfl

set_option maxRecDepth 1000000 in
theorem uploadFailPre_idx :
    13 < uploadFailPre.data.length ∧
    ¬ uploadFailPre.data[13]? = genFailMsg.data[13]? := by decide

set_option maxRecDepth 1000000 in
theorem dbFailPre_idx :
    13 < dbFailPre.data.length ∧
    ¬ dbFailPre.data[13]? = genFailMsg.data[13]? := by decide

set_option maxRecDepth 1000000 in
theorem urlFailMsg_ne_gen : ¬ urlFailMsg = genFailMsg := by decide

set_option maxRecDepth 1000000 in
theorem dbEmptyMsg_ne_gen : ¬ dbEmptyMsg = genFailMsg := by decide

/-- Claim C8: when a payload was obtained but a persistence step fails
(storage upload, public-URL construction, metadata insert, or an empty
insert result), the endpoint returns a `success:false` envelope (never a
raised error) whose message acknowledges that the image was generated or
uploaded but not fully persisted, and that message is distinct from the
generation-failure message. -/
theorem c8_persistence_failure_envelope (env : Env) (tu hu : String)
    (es0 : List Effect) (bs : List Nat × List Nat) (es1 : List Effect)
    (d : List Nat)
    (hp : preflight env = (.ok (tu, hu), es0))
    (hd : downloadBoth env tu hu = (.ok bs, es1))
    (h1 : attemptPayload env 1 = some d) :
    (∀ e, env.upload = .error e →
       (generateImage env).1 = .failure (uploadFailPre ++ e) ∧
       ¬ uploadFailPre ++ e = genFailMsg ∧
       ∃ r, uploadFailPre ++ e = ackGenerated ++ r) ∧
    (env.upload = .ok () → ∀ u, env.publicUrl = .error u →
       (generateImage env).1 = .failure urlFailMsg ∧
       ¬ urlFailMsg = genFailMsg ∧
       ∃ r, urlFailMsg = ackUploaded ++ r) ∧
    (∀ e url, env.upload = .ok () → env.publicUrl = .ok url →
       env.insertRes = .error e →
       (generateImage env).1 = .failure (dbFailPre ++ e) ∧
       ¬ dbFailPre ++ e = genFailMsg ∧
       ∃ r, dbFailPre ++ e = ackGenerated ++ r) ∧
    (∀ url, env.upload = .ok () → env.publicUrl = .ok url →
       env.insertRes = .ok [] →
       (generateImage env).1 = .failure dbEmptyMsg ∧
       ¬ dbEmptyMsg = genFailMsg ∧
       ∃ r, dbEmptyMsg = ackGenerated ++ r) := by
  have hne : ¬ d = [] := attemptPayload_ne_nil h1
  have hloop := attemptLoop_success1 env (runAnalysisOutcome env.analyzer) h1
  have hfst : (generateImage env).1 = (persist env (fileNameOf env)).1 := by
    unfold generateImage
    rw [hp]
    simp only
    rw [hd]
    simp only
    rw [hloop]
    simp [hne]
  refine ⟨?_, ?_, ?_, ?_⟩
  · intro e hup
    refine ⟨?_, prefix_append_ne 13 uploadFailPre_idx.1 uploadFailPre_idx.2 e, ?_⟩
    · rw [hfst]
      unfold persist
      rw [hup]
    · exact ⟨" successfully but failed to upload to storage: " ++ e,
        by rw [uploadFailPre_split, str_append_assoc]⟩
  · intro hup u hpu
    refine ⟨?_, urlFailMsg_ne_gen, ?_⟩
    · rw [hfst]
      unfold persist
      rw [hup]
      simp only
      rw [hpu]
    · exact ⟨" but failed to generate public URL. Please contact support.",
        urlFailMsg_split⟩
  · intro e url hup hpu hins
    refine ⟨?_, prefix_append_ne 13 dbFailPre_idx.1 dbFailPre_idx.2 e, ?_⟩
    · rw [hfst]
      unfold persist
      rw [hup]
      simp only
      rw [hpu]
      simp only
      rw [hins]
    · exact ⟨" but failed to save to database: " ++ e,
        by rw [dbFailPre_split, str_append_assoc]⟩
  · intro url hup hpu hins
    refine ⟨?_, dbEmptyMsg_ne_gen, ?_⟩
    · rw [hfst]
      unfold persist
      rw [hup]
      simp only
      rw [hpu]
      simp only
      rw [hins]
    · exact ⟨" but failed to save record. Please contact support.",
        dbEmptyMsg_split⟩

def envC8 : Env := { envBase with upload := .error "bucket unavailable" }

/-- Witness for claim C8: a failing storage upload after a successful
generation yields the generated-but-not-stored envelope. -/
theorem c8_persistence_failure_envelope_witness :
    (generateImage envC8).1 = .failure (uploadFailPre ++ "bucket unavailable") ∧
    ¬ uploadFailPre ++ "bucket unavailable" = genFailMsg ∧
    ∃ r, uploadFailPre ++ "bucket unavailable" = ackGenerated ++ r :=
  (c8_persistence_failure_envelope envC8
    "http://img.example/tile.jpg" "http://img.example/home.jpg"
    [] ([1, 2, 3], [1, 2, 3])
    [.httpGet "http://img.example/tile.jpg", .httpGet "http://img.example/home.jpg"]
    [7, 7] rfl rfl rfl).1 "bucket unavailable" rfl

/-! ## Claim C9 -/

/-- Claim C9: catalog-identifier resolution is scoped to the authenticated
caller, for both the `tile_id` lookup against the `tiles` table and the
`home_id` lookup against the `homes` table.  When every row with the
requested id belongs to a different user, the lookup is empty, the request
fails with the same typed HTTP 404 as a missing record, and the whole
pipeline behaves exactly as if the foreign rows did not exist. -/
theorem c9_cross_user_isolation (env : Env) (n : Int) :
    (env.body.tile_url = none → env.body.tile_id = some n → ¬ n = 0 →
     (strFalsy env.body.home_url && intFalsy env.body.home_id) = false →
     (∀ r ∈ env.tiles, r.id = n → ¬ r.user_id = env.user_id) →
       lookupRows env.tiles n env.user_id = [] ∧
       generateImage env =
         (.httpError 404 ("Tile with ID " ++ toString n ++ msgNotFoundSuffix),
          [.dbSelectTiles n env.user_id]) ∧
       generateImage env = generateImage { env with tiles := [] }) ∧
    (∀ u : String, env.body.tile_url = some u → ¬ u = "" →
     env.body.home_url = none → env.body.home_id = some n → ¬ n = 0 →
     (∀ r ∈ env.homes, r.id = n → ¬ r.user_id = env.user_id) →
       lookupRows env.homes n env.user_id = [] ∧
       generateImage env =
         (.httpError 404 ("Home with ID " ++ toString n ++ msgNotFoundSuffix),
          [.dbSelectHomes n env.user_id]) ∧
       generateImage env = generateImage { env with homes := [] }) := by
  constructor
  · intro hurl hid hn hhome hforeign
    have hlook : lookupRows env.tiles n env.user_id = [] := by
      unfold lookupRows
      rw [List.filter_eq_nil_iff]
      intro r hr
      simp only [Bool.and_eq_true, decide_eq_true_eq, not_and]
      intro h1 h2
      exact hforeign r hr h1 h2
    have h404 := generateImage_tile404 env n (by rw [hurl]; rfl) hid hn hhome hlook
    have h404b := generateImage_tile404 { env with tiles := [] } n
      (by rw [hurl]; rfl) hid hn hhome rfl
    exact ⟨hlook, h404, h404.trans h404b.symm⟩
  · intro u htile hu hurl hid hn hforeign
    have hlook : lookupRows env.homes n env.user_id = [] := by
      unfold lookupRows
      rw [List.filter_eq_nil_iff]
      intro r hr
      simp only [Bool.and_eq_true, decide_eq_true_eq, not_and]
      intro h1 h2
      exact hforeign r hr h1 h2
    have h404 := generateImage_home404 env u n htile hu (by rw [hurl]; rfl)
      hid hn hlook
    have h404b := generateImage_home404 { env with homes := [] } u n htile hu
      (by rw [hurl]; rfl) hid hn rfl
    exact ⟨hlook, h404, h404.trans h404b.symm⟩

def envC9 : Env :=
  { envBase with
    body := { bodyBase with tile_url := none, tile_id := some 5 }
    tiles := [⟨5, "someone-else", "http://img.example/foreign.jpg"⟩] }

def envC9h : Env :=
  { envBase with
    body := { bodyBase with home_url := none, home_id := some 9 }
    homes := [⟨9, "someone-else", "http://img.example/foreignhome.jpg"⟩] }

/-- Witness for claim C9, exercising both halves: a tile row with the
requested id but another owner yields the tile 404, a home row with the
requested id but another owner yields the home 404, and each run is
identical to one without the foreign row. -/
theorem c9_cross_user_isolation_witness :
    (lookupRows envC9.tiles 5 envC9.user_id = [] ∧
     generateImage envC9 =
       (.httpError 404 ("Tile with ID " ++ toString (5 : Int) ++ msgNotFoundSuffix),
        [.dbSelectTiles 5 envC9.user_id]) ∧
     generateImage envC9 = generateImage { envC9 with tiles := [] }) ∧
    (lookupRows envC9h.homes 9 envC9h.user_id = [] ∧
     generateImage envC9h =
       (.httpError 404 ("Home with ID " ++ toString (9 : Int) ++ msgNotFoundSuffix),
        [.dbSelectHomes 9 envC9h.user_id]) ∧
     generateImage envC9h = generateImage { envC9h with homes := [] }) :=
  ⟨(c9_cross_user_isolation envC9 5).1 rfl rfl (by decide) (by decide) (by decide),
   (c9_cross_user_isolation envC9h 9).2 "http://img.example/tile.jpg"
     rfl (by decide) rfl rfl (by decide) (by decide)⟩

/-! ## Claim C10 -/

theorem persist_effects_shape (env : Env) (fn url : String)
    (hup : env.upload = .ok ()) (hpu : env.publicUrl = .ok url) :
    (persist env fn).2 =
      [.storageUpload env.bucket fn, .getPublicUrl env.bucket fn,
       .dbInsert (dbRecord env url)] := by
  unfold persist
  rw [hup]
  simp only
  rw [hpu]
  simp only
  cases hi : env.insertRes with
  | error e => rfl
  | ok l =>
    cases l with
    | nil => rfl
    | cons r rest => rfl

/-- Claim C10: the metadata record inserted after a successful generation
stores under `prompt` the raw request hint, or the literal
`"Auto-generated"` when the hint is empty, never the composed primary or
fallback prompt text, and the record has no `tile_id` key at all. -/
theorem c10_metadata_record (env : Env) (tu hu : String)
    (es0 : List Effect) (bs : List Nat × List Nat) (es1 : List Effect)
    (d : List Nat) (url : String)
    (hp : preflight env = (.ok (tu, hu), es0))
    (hd : downloadBoth env tu hu = (.ok bs, es1))
    (h1 : attemptPayload env 1 = some d)
    (hup : env.upload = .ok ()) (hpu : env.publicUrl = .ok url) :
    Effect.dbInsert (dbRecord env url) ∈ (generateImage env).2 ∧
    recordGet (dbRecord env url) "prompt" =
      some (.s (if env.body.prompt = "" then "Auto-generated" else env.body.prompt)) ∧
    ¬ "tile_id" ∈ recordKeys (dbRecord env url) ∧
    (∀ ctx : PDict,
       ¬ (if env.body.prompt = "" then "Auto-generated" else env.body.prompt) =
           composePrimary ctx env.body.prompt ∧
       ¬ (if env.body.prompt = "" then "Auto-generated" else env.body.prompt) =
           composeFallback ctx env.body.prompt) := by
  have hne : ¬ d = [] := attemptPayload_ne_nil h1
  have hloop := attemptLoop_success1 env (runAnalysisOutcome env.analyzer) h1
  have hper := persist_effects_shape env (fileNameOf env) url hup hpu
  refine ⟨?_, ?_, ?_, ?_⟩
  · have hsnd : (generateImage env).2 =
        es0 ++ es1 ++ [.analyzeCall] ++
          [.genCall 1 (composePrimary (runAnalysisOutcome env.analyzer) env.body.prompt)
             (attemptConsumed env 1),
           .saveLocal (fileNameOf env)] ++ (persist env (fileNameOf env)).2 := by
      unfold generateImage
      rw [hp]
      simp only
      rw [hd]
      simp only
      rw [hloop]
      simp [hne]
    rw [hsnd, hper]
    simp
  · rfl
  · simp [recordKeys, dbRecord]
  · intro ctx
    exact ⟨storedPrompt_ne_primary ctx env.body.prompt,
      storedPrompt_ne_fallback ctx env.body.prompt⟩

def envC10 : Env :=
  { envBase with body := { bodyBase with prompt := "  make the floor marble  " } }

/-- Witness for claim C10: with a non-empty hint, the inserted record
stores the raw hint and has no tile_id key. -/
theorem c10_metadata_record_witness :
    Effect.dbInsert (dbRecord envC10 "https://pub.example/generated/x.jpg") ∈
      (generateImage envC10).2 ∧
    recordGet (dbRecord envC10 "https://pub.example/generated/x.jpg") "prompt" =
      some (.s (if envC10.body.prompt = "" then "Auto-generated" else envC10.body.prompt)) ∧
    ¬ "tile_id" ∈ recordKeys (dbRecord envC10 "https://pub.example/generated/x.jpg") ∧
    (∀ ctx : PDict,
       ¬ (if envC10.body.prompt = "" then "Auto-generated" else envC10.body.prompt) =
           composePrimary ctx envC10.body.prompt ∧
       ¬ (if envC10.body.prompt = "" then "Auto-generated" else envC10.body.prompt) =
           composeFallback ctx envC10.body.prompt) :=
  c10_metadata_record envC10
    "http://img.example/tile.jpg" "http://img.example/home.jpg"
    [] ([1, 2, 3], [1, 2, 3])
    [.httpGet "http://img.example/tile.jpg", .httpGet "http://img.example/home.jpg"]
    [7, 7] "https://pub.example/generated/x.jpg" rfl rfl rfl rfl rfl

end AiTile
